import Mathlib

/-!
Shallow embedding of the pytest-workflow plugin core
(`src/pytest_workflow/plugin.py`) and verification of its specification.

The embedding follows the source file statement by statement.  Side effects
(directory creation, process spawning, finalizer registration) are made
explicit: `run_workflow` and `collect` return, besides their Python return
value, the list of existing directories, the trace of events they produced
and the list of finalizers they registered.  Parts of the repository that
`plugin.py` imports but whose source is not part of this tree
(`Workflow.run`, `replace_whitespace`, the pytest collection/finalization
machinery) are modelled from the specification; each such definition says so
in its doc comment.
-/

namespace PytestWorkflow

/-- Python whitespace characters (the ASCII part of the `\s` class), used by
whitespace normalization of test names. -/
def isPythonSpace (c : Char) : Bool :=
  c = ' ' || c = '\t' || c = '\n' || c = '\x0b' || c = '\x0c' || c = '\r'

/-- Modelled from the spec: `replace_whitespace` is imported from the
package root, whose source is not in this tree.  The spec describes the test
name as "used as a unique filesystem-safe key after whitespace
normalization": every whitespace character of the name is replaced by the
replacement character. -/
def replace_whitespace (s : String) (replaceWith : Char) : String :=
  ⟨s.data.map (fun c => if isPythonSpace c then replaceWith else c)⟩

/-- `Path` join (`basetemp / name`). -/
def pathJoin (a b : String) : String :=
  a ++ "/" ++ b

/-- A parsed workflow test, as produced by `workflow_tests_from_schema`.
The schema module is outside the embedded core; the fields are exactly the
ones `plugin.py` reads: `name`, `command`, `exit_code`, `stdout`, `stderr`,
`files`. -/
structure WorkflowTest where
  name : String
  command : String
  exit_code : Int
  stdout : List String
  stderr : List String
  files : List String
deriving DecidableEq, Repr

/-- The frozen result of one `Workflow` after `run()` has completed: the
command, the working directory it ran in, and the captured exit code and
stream contents. -/
structure Workflow where
  command : String
  cwd : String
  exit_code : Int
  stdout_bytes : List String
  stderr_bytes : List String
deriving DecidableEq, Repr

/-- The pytest configuration bits `run_workflow` reads: the base temporary
directory, the project root directory and the `--keep-workflow-wd` flag. -/
structure Config where
  basetemp : String
  rootdir : String
  keep_workflow_wd : Bool
deriving DecidableEq, Repr

/-- Modelled from the spec: the behaviour of `Workflow.run` (module
`workflow.py`, not in this tree).  For a command, `spawn` yields `none` when
the command cannot be spawned at all (an execution error, distinct from a
nonzero exit code) and otherwise the exit code together with the captured
stdout and stderr lines of the completed process. -/
structure Env where
  spawn : String → Option (Int × List String × List String)

/-- Errors that abort `run_workflow`: `shutil.copytree` raising because the
target directory already exists, and `Workflow.run` raising because the
command cannot be spawned. -/
inductive ExecError where
  | fileExists (dir : String)
  | spawnFailure (command : String)
deriving DecidableEq, Repr

/-- Observable events of one `run_workflow` call, in order. -/
inductive Event where
  | copytree (src dst : String)
  | printRun (name command dir : String)
  | run (command dir : String)
  | registerFinalizer
deriving DecidableEq, Repr

def Event.isRun : Event → Bool
  | .run _ _ => true
  | _ => false

/-- A finalizer registered with `addfinalizer`: either the `write_logs`
closure (persists the captured streams of the workflow) or the
`rm_tempdir = functools.partial(shutil.rmtree, tempdir)` partial
application. -/
inductive FinalizerAction where
  | write_logs (name : String) (workflow : Workflow)
  | rm_tempdir (dir : String)
deriving DecidableEq, Repr

/-- The state and results of one `WorkflowTestsCollector.run_workflow`
call: the directories existing afterwards, the trace of events, the
finalizers registered on the collector, and the returned workflow (or the
exception that escaped). -/
structure RunResult where
  dirs : List String
  events : List Event
  finalizers : List FinalizerAction
  result : Except ExecError Workflow
deriving Repr

/-- The temporary directory name used by `run_workflow`:
`basetemp / replace_whitespace(self.name, '_')`. -/
def WorkflowTestsCollector.tempdir (cfg : Config) (name : String) : String :=
  pathJoin cfg.basetemp (replace_whitespace name '_')

/-- `WorkflowTestsCollector.run_workflow`, statement by statement:
compute `tempdir`; `shutil.copytree(rootdir, tempdir)` (raises and aborts
when `tempdir` already exists, otherwise creates it); build the `Workflow`;
print; `workflow.run()` (raises on spawn failure — modelled by `env.spawn`);
then register exactly one finalizer, `write_logs` when `keep_workflow_wd`
is set and `rm_tempdir` otherwise; return the workflow. -/
def WorkflowTestsCollector.run_workflow (cfg : Config) (env : Env)
    (dirs : List String) (wt : WorkflowTest) : RunResult :=
  let tempdir := WorkflowTestsCollector.tempdir cfg wt.name
  if tempdir ∈ dirs then
    { dirs := dirs, events := [], finalizers := [],
      result := .error (.fileExists tempdir) }
  else
    match env.spawn wt.command with
    | none =>
        { dirs := tempdir :: dirs,
          events := [.copytree cfg.rootdir tempdir,
                     .printRun wt.name wt.command tempdir],
          finalizers := [],
          result := .error (.spawnFailure wt.command) }
    | some (code, out, err) =>
        let workflow : Workflow :=
          ⟨wt.command, tempdir, code, out, err⟩
        { dirs := tempdir :: dirs,
          events := [.copytree cfg.rootdir tempdir,
                     .printRun wt.name wt.command tempdir,
                     .run wt.command tempdir,
                     .registerFinalizer],
          finalizers := [if cfg.keep_workflow_wd then
                           .write_logs wt.name workflow
                         else
                           .rm_tempdir tempdir],
          result := .ok workflow }

/-- Which of the two content generators a `ContentTestCollector` was handed:
`workflow.stdout_lines` or `workflow.stderr_lines`. -/
inductive StreamSource where
  | stdoutLines
  | stderrLines
deriving DecidableEq, Repr

/-- The test collectors/items `WorkflowTestsCollector.collect` builds:
`FileTestCollector(self, filetest, workflow)`,
`ExitCodeTest(parent, desired_exit_code, workflow)` and
`ContentTestCollector(name, parent, content_generator, content_test,
workflow)`.  Each carries the `Workflow` object it was constructed with. -/
inductive TestItem where
  | fileTestCollector (filetest : String) (workflow : Workflow)
  | exitCodeTest (desired_exit_code : Int) (workflow : Workflow)
  | contentTestCollector (name : String) (content_generator : StreamSource)
      (content_test : List String) (workflow : Workflow)
deriving DecidableEq, Repr

/-- The `Workflow` object a test item reads from. -/
def TestItem.workflow : TestItem → Workflow
  | .fileTestCollector _ w => w
  | .exitCodeTest _ w => w
  | .contentTestCollector _ _ _ w => w

/-- State and results of one `WorkflowTestsCollector.collect` call. -/
structure CollectResult where
  dirs : List String
  events : List Event
  finalizers : List FinalizerAction
  result : Except ExecError (List TestItem)
deriving Repr

/-- `WorkflowTestsCollector.collect`: run the workflow once via
`run_workflow`, then build the test list
`files ++ [exit code] ++ [stdout] ++ [stderr]`, every item holding the one
workflow object. -/
def WorkflowTestsCollector.collect (cfg : Config) (env : Env)
    (dirs : List String) (wt : WorkflowTest) : CollectResult :=
  let r := WorkflowTestsCollector.run_workflow cfg env dirs wt
  match r.result with
  | .error e => ⟨r.dirs, r.events, r.finalizers, .error e⟩
  | .ok workflow =>
      ⟨r.dirs, r.events, r.finalizers,
       .ok ((wt.files.map (fun ft => TestItem.fileTestCollector ft workflow))
            ++ [TestItem.exitCodeTest wt.exit_code workflow]
            ++ [TestItem.contentTestCollector "stdout" .stdoutLines
                  wt.stdout workflow]
            ++ [TestItem.contentTestCollector "stderr" .stderrLines
                  wt.stderr workflow])⟩

/-- `ExitCodeTest.runtest`: `assert workflow.exit_code == desired_exit_code`;
`true` means the assertion holds. -/
def ExitCodeTest.runtest (workflow : Workflow) (desired_exit_code : Int) :
    Bool :=
  workflow.exit_code == desired_exit_code

/-- `ExitCodeTest.repr_failure`: the failure message, built exactly as the
source builds it with `+` and `str.format`. -/
def ExitCodeTest.repr_failure (workflow : Workflow)
    (desired_exit_code : Int) : String :=
  "The workflow exited with exit code " ++
    ("'" ++ toString workflow.exit_code ++ "' instead of '" ++
      toString desired_exit_code ++ "'.")

/-- The two attributes of a `py.path.local` that `pytest_collect_file`
reads: `path.ext` (extension with its leading dot) and `path.basename`. -/
structure LocalPath where
  ext : String
  basename : String
deriving DecidableEq, Repr

/-- A `YamlFile` collector, holding the path it was constructed from. -/
structure YamlFile where
  path : LocalPath
deriving DecidableEq, Repr

/-- `pytest_collect_file`: return a `YamlFile` when the extension is `.yml`
or `.yaml` and the basename starts with `test`, otherwise `None`. -/
def pytest_collect_file (path : LocalPath) : Option YamlFile :=
  if (path.ext ∈ [".yml", ".yaml"]) ∧ path.basename.startsWith "test" then
    some ⟨path⟩
  else
    none

/-- The filesystem as far as finalizers touch it: the existing directories
and the files with their line contents. -/
structure FsState where
  dirs : List String
  files : List (String × List String)
deriving DecidableEq, Repr

/-- Modelled from the spec: the effect of running a registered finalizer.
`write_logs` calls `workflow.stderr_to_file()` and `workflow.stdout_to_file()`
(module `workflow.py`, not in this tree); per the spec these persist the
captured streams as deterministically named log files inside the isolation
directory and leave the directory in place.  `rm_tempdir` is
`shutil.rmtree(tempdir)`: it removes the directory. -/
def applyFinalizer : FinalizerAction → FsState → FsState
  | .write_logs _ workflow, fs =>
      { dirs := fs.dirs,
        files := fs.files ++
          [(pathJoin workflow.cwd "log.err", workflow.stderr_bytes),
           (pathJoin workflow.cwd "log.out", workflow.stdout_bytes)] }
  | .rm_tempdir dir, fs =>
      { dirs := fs.dirs.filter (fun d => d ≠ dir),
        files := fs.files.filter (fun f => ¬ dir.isPrefixOf f.1) }

/-- An event in the execution of one collector node: running one of its
test items, or running one of its finalizers. -/
inductive NodeEvent where
  | check (t : TestItem)
  | finalize (f : FinalizerAction)
deriving DecidableEq, Repr

def NodeEvent.isCheck : NodeEvent → Bool
  | .check _ => true
  | .finalize _ => false

/-- Modelled from the spec: pytest runs a node's registered finalizers only
after all the node's tests have completed (`addfinalizer` "adds a function
that is run when the node tests are completed"); finalizers run in reverse
registration order. -/
def runNode (tests : List TestItem) (finalizers : List FinalizerAction) :
    List NodeEvent :=
  tests.map NodeEvent.check ++ finalizers.reverse.map NodeEvent.finalize

/-- Modelled from the spec: how pytest reports one collector.  An exception
escaping `collect` is caught by the collection machinery and reported as a
single collection error for that collector — its dependent test items are
never created; it does not unwind across collector boundaries. -/
inductive CollectorOutcome where
  | items (tests : List TestItem)
  | collectError (e : ExecError)
deriving DecidableEq, Repr

/-- Run one `WorkflowTestsCollector` inside a session: its outcome and the
directories existing afterwards. -/
def runOne (cfg : Config) (env : Env) (dirs : List String)
    (wt : WorkflowTest) : CollectorOutcome × List String :=
  let c := WorkflowTestsCollector.collect cfg env dirs wt
  (match c.result with
   | .ok tests => .items tests
   | .error e => .collectError e,
   c.dirs)

/-- Modelled from the spec: a collection session runs each workflow's
collector in turn against the shared filesystem; one collector's failure is
recorded as its own outcome and the session continues. -/
def runSession (cfg : Config) (env : Env) (dirs : List String) :
    List WorkflowTest → List CollectorOutcome
  | [] => []
  | wt :: rest =>
      let p := runOne cfg env dirs wt
      p.1 :: runSession cfg env p.2 rest

/-- `small` occurs inside `big` as a contiguous substring. -/
def strContainsSub (big small : String) : Prop :=
  ∃ l r, big = l ++ small ++ r

/-- Helper: `run_workflow` when the temporary directory already exists:
`shutil.copytree` raises, nothing else happens. -/
theorem run_workflow_collision (cfg : Config) (env : Env)
    (dirs : List String) (wt : WorkflowTest)
    (hd : WorkflowTestsCollector.tempdir cfg wt.name ∈ dirs) :
    WorkflowTestsCollector.run_workflow cfg env dirs wt =
      ⟨dirs, [], [],
       .error (.fileExists (WorkflowTestsCollector.tempdir cfg wt.name))⟩ := by
  unfold WorkflowTestsCollector.run_workflow
  rw [if_pos hd]

/-- Helper: `run_workflow` when the command cannot be spawned: the project
tree has been copied, `workflow.run()` raises, and no finalizer is
registered. -/
theorem run_workflow_spawn_fail (cfg : Config) (env : Env)
    (dirs : List String) (wt : WorkflowTest)
    (hd : WorkflowTestsCollector.tempdir cfg wt.name ∉ dirs)
    (hs : env.spawn wt.command = none) :
    WorkflowTestsCollector.run_workflow cfg env dirs wt =
      ⟨WorkflowTestsCollector.tempdir cfg wt.name :: dirs,
       [.copytree cfg.rootdir (WorkflowTestsCollector.tempdir cfg wt.name),
        .printRun wt.name wt.command
          (WorkflowTestsCollector.tempdir cfg wt.name)],
       [], .error (.spawnFailure wt.command)⟩ := by
  unfold WorkflowTestsCollector.run_workflow
  rw [if_neg hd, hs]

/-- Helper: `run_workflow` on a successful spawn. -/
theorem run_workflow_spawn_ok (cfg : Config) (env : Env)
    (dirs : List String) (wt : WorkflowTest) (code : Int)
    (out err : List String)
    (hd : WorkflowTestsCollector.tempdir cfg wt.name ∉ dirs)
    (hs : env.spawn wt.command = some (code, out, err)) :
    WorkflowTestsCollector.run_workflow cfg env dirs wt =
      ⟨WorkflowTestsCollector.tempdir cfg wt.name :: dirs,
       [.copytree cfg.rootdir (WorkflowTestsCollector.tempdir cfg wt.name),
        .printRun wt.name wt.command
          (WorkflowTestsCollector.tempdir cfg wt.name),
        .run wt.command (WorkflowTestsCollector.tempdir cfg wt.name),
        .registerFinalizer],
       [if cfg.keep_workflow_wd then
          .write_logs wt.name
            ⟨wt.command, WorkflowTestsCollector.tempdir cfg wt.name,
             code, out, err⟩
        else
          .rm_tempdir (WorkflowTestsCollector.tempdir cfg wt.name)],
       .ok ⟨wt.command, WorkflowTestsCollector.tempdir cfg wt.name,
            code, out, err⟩⟩ := by
  unfold WorkflowTestsCollector.run_workflow
  rw [if_neg hd, hs]

/-- Helper: inversion — a successful `run_workflow` means the temporary
directory was fresh, the spawn succeeded, and the returned workflow is the
frozen result of that one spawn in that directory. -/
theorem run_workflow_ok_inv (cfg : Config) (env : Env) (dirs : List String)
    (wt : WorkflowTest) (wf : Workflow)
    (h : (WorkflowTestsCollector.run_workflow cfg env dirs wt).result =
      .ok wf) :
    WorkflowTestsCollector.tempdir cfg wt.name ∉ dirs ∧
    ∃ code out err,
      env.spawn wt.command = some (code, out, err) ∧
      wf = ⟨wt.command, WorkflowTestsCollector.tempdir cfg wt.name,
            code, out, err⟩ := by
  by_cases hd : WorkflowTestsCollector.tempdir cfg wt.name ∈ dirs
  · rw [run_workflow_collision cfg env dirs wt hd] at h
    exact absurd h (by simp)
  · cases hs : env.spawn wt.command with
    | none =>
        rw [run_workflow_spawn_fail cfg env dirs wt hd hs] at h
        exact absurd h (by simp)
    | some v =>
        obtain ⟨code, out, err⟩ := v
        rw [run_workflow_spawn_ok cfg env dirs wt code out err hd hs] at h
        simp only [Except.ok.injEq] at h
        exact ⟨hd, code, out, err, rfl, h.symm⟩

/-- Helper: `collect` when the workflow ran: state is that of
`run_workflow` and the test list is files, exit code, stdout, stderr, all
over the one returned workflow. -/
theorem collect_ok (cfg : Config) (env : Env) (dirs : List String)
    (wt : WorkflowTest) (wf : Workflow)
    (h : (WorkflowTestsCollector.run_workflow cfg env dirs wt).result =
      .ok wf) :
    WorkflowTestsCollector.collect cfg env dirs wt =
      ⟨(WorkflowTestsCollector.run_workflow cfg env dirs wt).dirs,
       (WorkflowTestsCollector.run_workflow cfg env dirs wt).events,
       (WorkflowTestsCollector.run_workflow cfg env dirs wt).finalizers,
       .ok ((wt.files.map (fun ft => TestItem.fileTestCollector ft wf))
            ++ [TestItem.exitCodeTest wt.exit_code wf]
            ++ [TestItem.contentTestCollector "stdout" .stdoutLines
                  wt.stdout wf]
            ++ [TestItem.contentTestCollector "stderr" .stderrLines
                  wt.stderr wf])⟩ := by
  simp only [WorkflowTestsCollector.collect, h]

/-- Helper: `collect` when `run_workflow` raised: the exception propagates
and no test items are built. -/
theorem collect_err (cfg : Config) (env : Env) (dirs : List String)
    (wt : WorkflowTest) (e : ExecError)
    (h : (WorkflowTestsCollector.run_workflow cfg env dirs wt).result =
      .error e) :
    WorkflowTestsCollector.collect cfg env dirs wt =
      ⟨(WorkflowTestsCollector.run_workflow cfg env dirs wt).dirs,
       (WorkflowTestsCollector.run_workflow cfg env dirs wt).events,
       (WorkflowTestsCollector.run_workflow cfg env dirs wt).finalizers,
       .error e⟩ := by
  simp only [WorkflowTestsCollector.collect, h]

/-- Helper: the failure message of `ExitCodeTest` with the literal pieces
merged. -/
theorem repr_failure_split (wf : Workflow) (d : Int) :
    ExitCodeTest.repr_failure wf d =
      "The workflow exited with exit code '" ++ toString wf.exit_code ++
        ("' instead of '" ++ (toString d ++ "'.")) := by
  simp [ExitCodeTest.repr_failure, ← String.append_assoc]

/-- C2: the exit-code check passes iff the observed exit code equals the
desired one, and on failure its message contains both the observed and the
desired value. -/
theorem exit_code_check_iff_and_detail (wf : Workflow) (d : Int) :
    (ExitCodeTest.runtest wf d = true ↔ wf.exit_code = d) ∧
    (wf.exit_code ≠ d →
      strContainsSub (ExitCodeTest.repr_failure wf d)
        (toString wf.exit_code) ∧
      strContainsSub (ExitCodeTest.repr_failure wf d) (toString d)) := by
  constructor
  · simp [ExitCodeTest.runtest]
  · intro _
    constructor
    · refine ⟨"The workflow exited with exit code '",
        "' instead of '" ++ (toString d ++ "'."), ?_⟩
      rw [repr_failure_split]
    · refine ⟨"The workflow exited with exit code '" ++
        toString wf.exit_code ++ "' instead of '", "'.", ?_⟩
      rw [repr_failure_split]
      simp [← String.append_assoc]

/-- Witness for C2 at a concrete failing run: observed `0`, desired `1`. -/
theorem exit_code_check_iff_and_detail_witness :
    strContainsSub
      (ExitCodeTest.repr_failure ⟨"true", "/t", 0, [], []⟩ 1)
      (toString (0 : Int)) ∧
    strContainsSub
      (ExitCodeTest.repr_failure ⟨"true", "/t", 0, [], []⟩ 1)
      (toString (1 : Int)) :=
  (exit_code_check_iff_and_detail ⟨"true", "/t", 0, [], []⟩ 1).2 (by decide)

/-- C3: the failure message of the exit-code check is exactly
`The workflow exited with exit code 'N' instead of 'M'.` with the observed
and desired codes substituted. -/
theorem exit_code_failure_message_exact (wf : Workflow) (d : Int) :
    ExitCodeTest.repr_failure wf d =
      "The workflow exited with exit code '" ++ toString wf.exit_code ++
        ("' instead of '" ++ (toString d ++ "'.")) :=
  repr_failure_split wf d

/-- C9: `pytest_collect_file` yields a `YamlFile` collector exactly for
paths whose extension is `.yml` or `.yaml` and whose basename starts with
`test`; every other path yields `None`. -/
theorem pytest_collect_file_iff (p : LocalPath) :
    ((∃ y, pytest_collect_file p = some y) ↔
      ((p.ext = ".yml" ∨ p.ext = ".yaml") ∧
        p.basename.startsWith "test" = true)) ∧
    (¬ ((p.ext = ".yml" ∨ p.ext = ".yaml") ∧
          p.basename.startsWith "test" = true) →
      pytest_collect_file p = none) := by
  constructor
  · unfold pytest_collect_file
    split
    · rename_i hcond
      simp only [List.mem_cons, List.not_mem_nil, or_false] at hcond
      exact ⟨fun _ => hcond, fun _ => ⟨⟨p⟩, rfl⟩⟩
    · rename_i hcond
      simp only [List.mem_cons, List.not_mem_nil, or_false] at hcond
      constructor
      · intro h
        obtain ⟨y, hy⟩ := h
        exact absurd hy (by simp)
      · intro h
        exact absurd h hcond
  · intro h
    unfold pytest_collect_file
    split
    · rename_i hcond
      simp only [List.mem_cons, List.not_mem_nil, or_false] at hcond
      exact absurd hcond h
    · rfl

/-- Witness for C9: a `.txt` path is ignored. -/
theorem pytest_collect_file_iff_witness :
    pytest_collect_file ⟨".txt", "testfile"⟩ = none :=
  (pytest_collect_file_iff ⟨".txt", "testfile"⟩).2 (by decide)

/-- C1: when collection of a workflow succeeds, the workflow's command was
run exactly once (one `workflow.run()` event in the trace), and every test
item built for it — each file test, the exit-code test, the stdout test and
the stderr test — holds that same single `Workflow` object. -/
theorem workflow_run_called_once_and_shared (cfg : Config) (env : Env)
    (dirs : List String) (wt : WorkflowTest) (tests : List TestItem)
    (h : (WorkflowTestsCollector.collect cfg env dirs wt).result =
      .ok tests) :
    (WorkflowTestsCollector.collect cfg env dirs wt).events.countP
      Event.isRun = 1 ∧
    ∃ wf : Workflow,
      (WorkflowTestsCollector.run_workflow cfg env dirs wt).result =
        .ok wf ∧
      ∀ t ∈ tests, t.workflow = wf := by
  cases hr : (WorkflowTestsCollector.run_workflow cfg env dirs wt).result
    with
  | error e =>
      rw [collect_err cfg env dirs wt e hr] at h
      exact absurd h (by simp)
  | ok wf =>
      rw [collect_ok cfg env dirs wt wf hr] at h
      simp only [Except.ok.injEq] at h
      subst h
      obtain ⟨hd, code, out, err, hs, hwf⟩ :=
        run_workflow_ok_inv cfg env dirs wt wf hr
      constructor
      · rw [collect_ok cfg env dirs wt wf hr]
        rw [run_workflow_spawn_ok cfg env dirs wt code out err hd hs]
        simp [List.countP_cons, Event.isRun]
      · refine ⟨wf, rfl, ?_⟩
        intro t ht
        simp only [List.mem_append, List.mem_map,
          List.mem_singleton] at ht
        rcases ht with ((⟨ft, hft, rfl⟩ | rfl) | rfl) | rfl <;> rfl

/-- Witness for C1: a concrete successful collection. -/
theorem workflow_run_called_once_and_shared_witness :
    (WorkflowTestsCollector.collect ⟨"/tmp/base", "/proj", false⟩
      ⟨fun _ => some (0, [], [])⟩ [] ⟨"wf", "true", 0, [], [], []⟩).events.countP
      Event.isRun = 1 :=
  (workflow_run_called_once_and_shared ⟨"/tmp/base", "/proj", false⟩
    ⟨fun _ => some (0, [], [])⟩ [] ⟨"wf", "true", 0, [], [], []⟩
    [TestItem.exitCodeTest 0 ⟨"true", "/tmp/base/wf", 0, [], []⟩,
     TestItem.contentTestCollector "stdout" .stdoutLines []
       ⟨"true", "/tmp/base/wf", 0, [], []⟩,
     TestItem.contentTestCollector "stderr" .stderrLines []
       ⟨"true", "/tmp/base/wf", 0, [], []⟩] rfl).1

/-- Counterexample for C4: for a workflow with one file expectation the
first collected item is the file test, not the exit-code test, so the
claimed order [exit code, stdout, stderr, files...] does not hold. -/
theorem collect_order_counterexample :
    (WorkflowTestsCollector.collect ⟨"/tmp/base", "/proj", false⟩
        ⟨fun _ => some (0, [], [])⟩ [] ⟨"wf one", "true", 0, [], [],
        ["out.txt"]⟩).result =
      .ok [TestItem.fileTestCollector "out.txt"
             ⟨"true", "/tmp/base/wf_one", 0, [], []⟩,
           TestItem.exitCodeTest 0 ⟨"true", "/tmp/base/wf_one", 0, [], []⟩,
           TestItem.contentTestCollector "stdout" .stdoutLines []
             ⟨"true", "/tmp/base/wf_one", 0, [], []⟩,
           TestItem.contentTestCollector "stderr" .stderrLines []
             ⟨"true", "/tmp/base/wf_one", 0, [], []⟩] ∧
    TestItem.fileTestCollector "out.txt"
        ⟨"true", "/tmp/base/wf_one", 0, [], []⟩ ≠
      TestItem.exitCodeTest 0 ⟨"true", "/tmp/base/wf_one", 0, [], []⟩ := by
  exact ⟨rfl, by decide⟩

/-- C4 (amended): collection returns the test items in the deterministic
order: first one item per file expectation in specification order, then the
exit-code item, then the stdout item, then the stderr item. -/
theorem collect_order_files_exit_stdout_stderr (cfg : Config) (env : Env)
    (dirs : List String) (wt : WorkflowTest) (wf : Workflow)
    (h : (WorkflowTestsCollector.run_workflow cfg env dirs wt).result =
      .ok wf) :
    (WorkflowTestsCollector.collect cfg env dirs wt).result =
      .ok ((wt.files.map (fun ft => TestItem.fileTestCollector ft wf))
           ++ [TestItem.exitCodeTest wt.exit_code wf]
           ++ [TestItem.contentTestCollector "stdout" .stdoutLines
                 wt.stdout wf]
           ++ [TestItem.contentTestCollector "stderr" .stderrLines
                 wt.stderr wf]) := by
  rw [collect_ok cfg env dirs wt wf h]

/-- Witness for C4 (amended) at a concrete input with one file test. -/
theorem collect_order_files_exit_stdout_stderr_witness :
    (WorkflowTestsCollector.collect ⟨"/tmp/base", "/proj", false⟩
        ⟨fun _ => some (0, [], [])⟩ [] ⟨"wf one", "true", 0, [], [],
        ["out.txt"]⟩).result =
      .ok (((["out.txt"] : List String).map (fun ft =>
              TestItem.fileTestCollector ft
                ⟨"true", "/tmp/base/wf_one", 0, [], []⟩))
           ++ [TestItem.exitCodeTest 0
                 ⟨"true", "/tmp/base/wf_one", 0, [], []⟩]
           ++ [TestItem.contentTestCollector "stdout" .stdoutLines []
                 ⟨"true", "/tmp/base/wf_one", 0, [], []⟩]
           ++ [TestItem.contentTestCollector "stderr" .stderrLines []
                 ⟨"true", "/tmp/base/wf_one", 0, [], []⟩]) :=
  collect_order_files_exit_stdout_stderr ⟨"/tmp/base", "/proj", false⟩
    ⟨fun _ => some (0, [], [])⟩ [] ⟨"wf one", "true", 0, [], [], ["out.txt"]⟩
    ⟨"true", "/tmp/base/wf_one", 0, [], []⟩ rfl

/-- Helper: in the execution of a collector node, every test item runs
before every finalizer. -/
theorem runNode_checks_before_finalizers (tests : List TestItem)
    (fins : List FinalizerAction) (i j : Nat)
    (hi : i < (runNode tests fins).length)
    (hj : j < (runNode tests fins).length)
    (hci : ((runNode tests fins).get ⟨i, hi⟩).isCheck = true)
    (hcj : ((runNode tests fins).get ⟨j, hj⟩).isCheck = false) : i < j := by
  have hi2 : i < tests.length := by
    by_contra hc
    push_neg at hc
    rw [List.get_eq_getElem] at hci
    simp only [runNode] at hci
    rw [List.getElem_append_right (by simpa using hc)] at hci
    rw [List.getElem_map] at hci
    simp [NodeEvent.isCheck] at hci
  have hj2 : tests.length ≤ j := by
    by_contra hc
    push_neg at hc
    rw [List.get_eq_getElem] at hcj
    simp only [runNode] at hcj
    rw [List.getElem_append_left (by simpa using hc)] at hcj
    rw [List.getElem_map] at hcj
    simp [NodeEvent.isCheck] at hcj
  omega

/-- C5: on a successful run exactly one finalizer is registered; with
`--keep-workflow-wd` it is `write_logs`, which persists the captured stdout
and stderr into the isolation directory and leaves the directory in place,
and without the flag it is `rm_tempdir`, which removes the isolation
directory; and in the node's execution every finalizer runs only after all
test items have run. -/
theorem finalizer_single_and_retention_semantics (cfg : Config) (env : Env)
    (dirs : List String) (wt : WorkflowTest) (wf : Workflow)
    (h : (WorkflowTestsCollector.run_workflow cfg env dirs wt).result =
      .ok wf) :
    (WorkflowTestsCollector.run_workflow cfg env dirs wt).finalizers.length
      = 1 ∧
    (cfg.keep_workflow_wd = true →
      (WorkflowTestsCollector.run_workflow cfg env dirs wt).finalizers =
        [.write_logs wt.name wf] ∧
      ∀ fs : FsState,
        (applyFinalizer (.write_logs wt.name wf) fs).dirs = fs.dirs ∧
        (applyFinalizer (.write_logs wt.name wf) fs).files =
          fs.files ++ [(pathJoin wf.cwd "log.err", wf.stderr_bytes),
                       (pathJoin wf.cwd "log.out", wf.stdout_bytes)]) ∧
    (cfg.keep_workflow_wd = false →
      (WorkflowTestsCollector.run_workflow cfg env dirs wt).finalizers =
        [.rm_tempdir wf.cwd] ∧
      ∀ fs : FsState,
        wf.cwd ∉ (applyFinalizer (.rm_tempdir wf.cwd) fs).dirs) ∧
    (∀ (tests : List TestItem) (i j : Nat)
       (hi : i < (runNode tests
         (WorkflowTestsCollector.run_workflow cfg env dirs
           wt).finalizers).length)
       (hj : j < (runNode tests
         (WorkflowTestsCollector.run_workflow cfg env dirs
           wt).finalizers).length),
       ((runNode tests (WorkflowTestsCollector.run_workflow cfg env dirs
         wt).finalizers).get ⟨i, hi⟩).isCheck = true →
       ((runNode tests (WorkflowTestsCollector.run_workflow cfg env dirs
         wt).finalizers).get ⟨j, hj⟩).isCheck = false → i < j) := by
  obtain ⟨hd, code, out, err, hs, hwf⟩ :=
    run_workflow_ok_inv cfg env dirs wt wf h
  rw [run_workflow_spawn_ok cfg env dirs wt code out err hd hs]
  refine ⟨by cases cfg.keep_workflow_wd <;> simp, ?_, ?_, ?_⟩
  · intro hk
    subst hwf
    refine ⟨by simp [hk], ?_⟩
    intro fs
    constructor
    · simp [applyFinalizer]
    · simp [applyFinalizer]
  · intro hk
    subst hwf
    refine ⟨by simp [hk], ?_⟩
    intro fs
    simp [applyFinalizer, List.mem_filter]
  · intro tests i j hi hj hci hcj
    exact runNode_checks_before_finalizers tests _ i j hi hj hci hcj

/-- Witness for C5: a successful run without `--keep-workflow-wd` registers
exactly one finalizer. -/
theorem finalizer_single_and_retention_semantics_witness :
    (WorkflowTestsCollector.run_workflow ⟨"/tmp/base", "/proj", false⟩
      ⟨fun _ => some (0, [], [])⟩ []
      ⟨"wf", "true", 0, [], [], []⟩).finalizers.length = 1 :=
  (finalizer_single_and_retention_semantics ⟨"/tmp/base", "/proj", false⟩
    ⟨fun _ => some (0, [], [])⟩ [] ⟨"wf", "true", 0, [], [], []⟩
    ⟨"true", "/tmp/base/wf", 0, [], []⟩ rfl).1

/-- Counterexample for C6: for a command that cannot be spawned, the run
aborts with the directory already allocated but with no cleanup action
registered at all — the deferred action is not registered at allocation
time and does not run on this exit path. -/
theorem cleanup_missing_on_spawn_failure_counterexample :
    (WorkflowTestsCollector.run_workflow ⟨"/tmp/base", "/proj", false⟩
      ⟨fun _ => none⟩ []
      ⟨"wf", "nosuchprogram", 0, [], [], []⟩).finalizers = [] ∧
    (WorkflowTestsCollector.run_workflow ⟨"/tmp/base", "/proj", false⟩
      ⟨fun _ => none⟩ []
      ⟨"wf", "nosuchprogram", 0, [], [], []⟩).result =
      .error (.spawnFailure "nosuchprogram") ∧
    (WorkflowTestsCollector.run_workflow ⟨"/tmp/base", "/proj", false⟩
      ⟨fun _ => none⟩ []
      ⟨"wf", "nosuchprogram", 0, [], [], []⟩).dirs = ["/tmp/base/wf"] :=
  ⟨rfl, rfl, rfl⟩

/-- C6 (amended): the cleanup-or-retention action is registered as a single
deferred action only after the command has been run — on a successful run
exactly one action is registered and the registration event is the last
event, after the run event; when the command cannot be spawned, no action
is registered and the isolation directory is left behind. -/
theorem cleanup_registered_after_run (cfg : Config) (env : Env)
    (dirs : List String) (wt : WorkflowTest) :
    (env.spawn wt.command = none →
      WorkflowTestsCollector.tempdir cfg wt.name ∉ dirs →
      (WorkflowTestsCollector.run_workflow cfg env dirs wt).finalizers =
        [] ∧
      WorkflowTestsCollector.tempdir cfg wt.name ∈
        (WorkflowTestsCollector.run_workflow cfg env dirs wt).dirs) ∧
    (∀ wf : Workflow,
      (WorkflowTestsCollector.run_workflow cfg env dirs wt).result =
        .ok wf →
      (WorkflowTestsCollector.run_workflow cfg env dirs
        wt).finalizers.length = 1 ∧
      (WorkflowTestsCollector.run_workflow cfg env dirs wt).events =
        [.copytree cfg.rootdir (WorkflowTestsCollector.tempdir cfg wt.name),
         .printRun wt.name wt.command
           (WorkflowTestsCollector.tempdir cfg wt.name),
         .run wt.command (WorkflowTestsCollector.tempdir cfg wt.name),
         .registerFinalizer]) := by
  constructor
  · intro hs hd
    rw [run_workflow_spawn_fail cfg env dirs wt hd hs]
    simp
  · intro wf h
    obtain ⟨hd, code, out, err, hs, hwf⟩ :=
      run_workflow_ok_inv cfg env dirs wt wf h
    rw [run_workflow_spawn_ok cfg env dirs wt code out err hd hs]
    exact ⟨by cases cfg.keep_workflow_wd <;> simp, rfl⟩

/-- Witness for C6 (amended): concrete spawn failure — no finalizer, the
directory stays. -/
theorem cleanup_registered_after_run_witness :
    (WorkflowTestsCollector.run_workflow ⟨"/tmp/base", "/proj", false⟩
      ⟨fun _ => none⟩ []
      ⟨"wf", "nosuchprogram", 0, [], [], []⟩).finalizers = [] ∧
    WorkflowTestsCollector.tempdir ⟨"/tmp/base", "/proj", false⟩ "wf" ∈
      (WorkflowTestsCollector.run_workflow ⟨"/tmp/base", "/proj", false⟩
        ⟨fun _ => none⟩ [] ⟨"wf", "nosuchprogram", 0, [], [], []⟩).dirs :=
  (cleanup_registered_after_run ⟨"/tmp/base", "/proj", false⟩
    ⟨fun _ => none⟩ [] ⟨"wf", "nosuchprogram", 0, [], [], []⟩).1 rfl
    (by simp)

/-- C8: on a successful run the workflow's working directory is the pytest
base temporary directory joined with the whitespace-normalized test name,
and the normalized name contains no whitespace character. -/
theorem tempdir_is_normalized_name (cfg : Config) (env : Env)
    (dirs : List String) (wt : WorkflowTest) (wf : Workflow)
    (h : (WorkflowTestsCollector.run_workflow cfg env dirs wt).result =
      .ok wf) :
    wf.cwd = pathJoin cfg.basetemp (replace_whitespace wt.name '_') ∧
    ∀ c ∈ (replace_whitespace wt.name '_').data, isPythonSpace c = false :=
  by
  obtain ⟨hd, code, out, err, hs, hwf⟩ :=
    run_workflow_ok_inv cfg env dirs wt wf h
  constructor
  · subst hwf
    rfl
  · intro c hc
    simp only [replace_whitespace, List.mem_map] at hc
    obtain ⟨a, ha, rfl⟩ := hc
    by_cases hsp : isPythonSpace a
    · simp [hsp]
      rfl
    · simp [hsp]

/-- Witness for C8: test name `a b` runs in `basetemp/a_b`. -/
theorem tempdir_is_normalized_name_witness :
    (⟨"true", "/tmp/base/a_b", 0, [], []⟩ : Workflow).cwd =
      pathJoin "/tmp/base" (replace_whitespace "a b" '_') :=
  (tempdir_is_normalized_name ⟨"/tmp/base", "/proj", false⟩
    ⟨fun _ => some (0, [], [])⟩ [] ⟨"a b", "true", 0, [], [], []⟩
    ⟨"true", "/tmp/base/a_b", 0, [], []⟩ rfl).1

/-- C10: the whole project root is copied into the fresh temporary
directory before the command runs — whenever the run event is in the trace,
the first event is the copy of the root directory into the temporary
directory — and when the temporary directory already exists, the copy
fails, `run_workflow` aborts with the `copytree` error and the command is
never executed. -/
theorem copytree_before_run_and_collision_aborts (cfg : Config) (env : Env)
    (dirs : List String) (wt : WorkflowTest) :
    (Event.run wt.command (WorkflowTestsCollector.tempdir cfg wt.name) ∈
      (WorkflowTestsCollector.run_workflow cfg env dirs wt).events →
      (WorkflowTestsCollector.run_workflow cfg env dirs wt).events.head? =
        some (.copytree cfg.rootdir
          (WorkflowTestsCollector.tempdir cfg wt.name))) ∧
    (WorkflowTestsCollector.tempdir cfg wt.name ∈ dirs →
      (WorkflowTestsCollector.run_workflow cfg env dirs wt).result =
        .error (.fileExists (WorkflowTestsCollector.tempdir cfg wt.name)) ∧
      ∀ c d : String, Event.run c d ∉
        (WorkflowTestsCollector.run_workflow cfg env dirs wt).events) := by
  constructor
  · intro hmem
    by_cases hd : WorkflowTestsCollector.tempdir cfg wt.name ∈ dirs
    · rw [run_workflow_collision cfg env dirs wt hd] at hmem ⊢
      simp at hmem
    · cases hs : env.spawn wt.command with
      | none =>
          rw [run_workflow_spawn_fail cfg env dirs wt hd hs] at hmem ⊢
          simp at hmem
      | some v =>
          obtain ⟨code, out, err⟩ := v
          rw [run_workflow_spawn_ok cfg env dirs wt code out err hd hs]
          rfl
  · intro hd
    rw [run_workflow_collision cfg env dirs wt hd]
    exact ⟨rfl, by simp⟩

/-- Witness for C10: a colliding temporary directory aborts the run before
the command is executed. -/
theorem copytree_before_run_and_collision_aborts_witness :
    (WorkflowTestsCollector.run_workflow ⟨"/tmp/base", "/proj", false⟩
      ⟨fun _ => some (0, [], [])⟩ ["/tmp/base/wf"]
      ⟨"wf", "true", 0, [], [], []⟩).result =
      .error (.fileExists "/tmp/base/wf") :=
  ((copytree_before_run_and_collision_aborts ⟨"/tmp/base", "/proj", false⟩
    ⟨fun _ => some (0, [], [])⟩ ["/tmp/base/wf"]
    ⟨"wf", "true", 0, [], [], []⟩).2 (List.mem_singleton.mpr rfl)).1

/-- Helper: the directories after `run_workflow` depend only on the prior
directories and the temporary directory name, never on the spawn result. -/
theorem run_workflow_dirs (cfg : Config) (env : Env) (dirs : List String)
    (wt : WorkflowTest) :
    (WorkflowTestsCollector.run_workflow cfg env dirs wt).dirs =
      if WorkflowTestsCollector.tempdir cfg wt.name ∈ dirs then dirs
      else WorkflowTestsCollector.tempdir cfg wt.name :: dirs := by
  by_cases hd : WorkflowTestsCollector.tempdir cfg wt.name ∈ dirs
  · rw [run_workflow_collision cfg env dirs wt hd, if_pos hd]
  · rw [if_neg hd]
    cases hs : env.spawn wt.command with
    | none => rw [run_workflow_spawn_fail cfg env dirs wt hd hs]
    | some v =>
        obtain ⟨code, out, err⟩ := v
        rw [run_workflow_spawn_ok cfg env dirs wt code out err hd hs]

/-- Helper: `collect` leaves the directory state of `run_workflow`
untouched. -/
theorem collect_dirs (cfg : Config) (env : Env) (dirs : List String)
    (wt : WorkflowTest) :
    (WorkflowTestsCollector.collect cfg env dirs wt).dirs =
      (WorkflowTestsCollector.run_workflow cfg env dirs wt).dirs := by
  cases hr : (WorkflowTestsCollector.run_workflow cfg env dirs wt).result
    with
  | error e => rw [collect_err cfg env dirs wt e hr]
  | ok wf => rw [collect_ok cfg env dirs wt wf hr]

/-- Helper: `run_workflow` depends on the environment only through the
spawn behaviour of this workflow's own command. -/
theorem run_workflow_congr (cfg : Config) (env envB : Env)
    (dirs : List String) (wt : WorkflowTest)
    (hagree : env.spawn wt.command = envB.spawn wt.command) :
    WorkflowTestsCollector.run_workflow cfg env dirs wt =
      WorkflowTestsCollector.run_workflow cfg envB dirs wt := by
  unfold WorkflowTestsCollector.run_workflow
  rw [hagree]

/-- Helper: `collect` depends on the environment only through the spawn
behaviour of this workflow's own command. -/
theorem collect_congr (cfg : Config) (env envB : Env) (dirs : List String)
    (wt : WorkflowTest)
    (hagree : env.spawn wt.command = envB.spawn wt.command) :
    WorkflowTestsCollector.collect cfg env dirs wt =
      WorkflowTestsCollector.collect cfg envB dirs wt := by
  unfold WorkflowTestsCollector.collect
  rw [run_workflow_congr cfg env envB dirs wt hagree]

/-- Helper: one collector's outcome depends on the environment only through
its own command. -/
theorem runOne_congr (cfg : Config) (env envB : Env) (dirs : List String)
    (wt : WorkflowTest)
    (hagree : env.spawn wt.command = envB.spawn wt.command) :
    runOne cfg env dirs wt = runOne cfg envB dirs wt := by
  unfold runOne
  rw [collect_congr cfg env envB dirs wt hagree]

/-- Helper: the directory state a collector passes on does not depend on
the environment at all. -/
theorem runOne_snd_env_indep (cfg : Config) (env envB : Env)
    (dirs : List String) (wt : WorkflowTest) :
    (runOne cfg env dirs wt).2 = (runOne cfg envB dirs wt).2 := by
  show (WorkflowTestsCollector.collect cfg env dirs wt).dirs =
    (WorkflowTestsCollector.collect cfg envB dirs wt).dirs
  rw [collect_dirs cfg env dirs wt, collect_dirs cfg envB dirs wt,
    run_workflow_dirs cfg env dirs wt, run_workflow_dirs cfg envB dirs wt]

/-- C7: a command that cannot be spawned is fatal for its own workflow only:
its collector yields a single collection-error outcome carrying no test
items (all dependent checks are skipped), and a workflow's outcome in a
session depends on the environment only through its own command, so one
workflow's spawn failure never affects another workflow's outcome. -/
theorem spawn_failure_fatal_and_isolated :
    (∀ (cfg : Config) (env : Env) (dirs : List String) (wt : WorkflowTest),
      env.spawn wt.command = none →
      WorkflowTestsCollector.tempdir cfg wt.name ∉ dirs →
      (runOne cfg env dirs wt).1 =
        .collectError (.spawnFailure wt.command)) ∧
    (∀ (cfg : Config) (env envB : Env) (dirs : List String)
       (wts : List WorkflowTest) (j : Nat),
      (∀ hj : j < wts.length,
        env.spawn ((wts.get ⟨j, hj⟩).command) =
          envB.spawn ((wts.get ⟨j, hj⟩).command)) →
      (runSession cfg env dirs wts).get? j =
        (runSession cfg envB dirs wts).get? j) := by
  constructor
  · intro cfg env dirs wt hs hd
    have hr : (WorkflowTestsCollector.run_workflow cfg env dirs
        wt).result = .error (.spawnFailure wt.command) := by
      rw [run_workflow_spawn_fail cfg env dirs wt hd hs]
    unfold runOne
    rw [collect_err cfg env dirs wt _ hr]
  · intro cfg env envB dirs wts j hagree
    induction wts generalizing dirs j with
    | nil => rfl
    | cons wt rest ih =>
        cases j with
        | zero =>
            have h0 : env.spawn wt.command = envB.spawn wt.command :=
              hagree (by simp)
            simp only [runSession, List.get?]
            rw [runOne_congr cfg env envB dirs wt h0]
        | succ k =>
            simp only [runSession, List.get?]
            rw [runOne_snd_env_indep cfg env envB dirs wt]
            exact ih ((runOne cfg envB dirs wt).2) k
              (fun hk => hagree (Nat.succ_lt_succ hk))

/-- Witness for C7: a concrete unspawnable command yields a single
collection error. -/
theorem spawn_failure_fatal_and_isolated_witness :
    (runOne ⟨"/tmp/base", "/proj", false⟩ ⟨fun _ => none⟩ []
      ⟨"wf", "nosuchprogram", 0, [], [], []⟩).1 =
      .collectError (.spawnFailure "nosuchprogram") :=
  spawn_failure_fatal_and_isolated.1 ⟨"/tmp/base", "/proj", false⟩
    ⟨fun _ => none⟩ [] ⟨"wf", "nosuchprogram", 0, [], [], []⟩ rfl
    (by simp)

end PytestWorkflow
